import Mathlib

/-!
Verification of PyLightTimers: a shallow embedding of the scheduler loop
(`timer.py`), the daylight provider (`weather.py`) and the configuration
utilities (`config.py`, `rooms_config.py`), together with theorems settling
the specification's claims about them.
-/

namespace PyLightTimers

/-- A `datetime.time` value: hour, minute, second, microsecond.
Python compares `time` objects lexicographically on these four fields. -/
structure TimeOfDay where
  hour : Nat
  minute : Nat
  second : Nat
  microsecond : Nat
deriving DecidableEq, Repr

/-- Validity bounds enforced by the `datetime.time` constructor. -/
def TimeOfDay.valid (t : TimeOfDay) : Prop :=
  t.hour < 24 ∧ t.minute < 60 ∧ t.second < 60 ∧ t.microsecond < 1000000

instance (t : TimeOfDay) : Decidable t.valid := by
  unfold TimeOfDay.valid; infer_instance

/-- The time-of-day as a number of microseconds since midnight (the
abstract value a time-of-day denotes; used to state correctness of the
lexicographic comparison). -/
def TimeOfDay.toMicros (t : TimeOfDay) : Nat :=
  ((t.hour * 60 + t.minute) * 60 + t.second) * 1000000 + t.microsecond

/-- Python's `<` on `datetime.time`: lexicographic comparison of
(hour, minute, second, microsecond). -/
def TimeOfDay.blt (a b : TimeOfDay) : Bool :=
  decide (a.hour < b.hour) ||
    (decide (a.hour = b.hour) &&
      (decide (a.minute < b.minute) ||
        (decide (a.minute = b.minute) &&
          (decide (a.second < b.second) ||
            (decide (a.second = b.second) &&
              decide (a.microsecond < b.microsecond))))))

/-- Python's `<=` on `datetime.time`: strictly-less or equal. -/
def TimeOfDay.ble (a b : TimeOfDay) : Bool :=
  TimeOfDay.blt a b || decide (a = b)

/-- `in_active_window` from `timer.py` (lines 75-83): the window wraps
midnight when `start_time > end_time`. -/
def in_active_window (start_time end_time current_time : TimeOfDay) : Bool :=
  if start_time.ble end_time then
    start_time.ble current_time && current_time.blt end_time
  else
    start_time.ble current_time || current_time.blt end_time

/-- A `datetime.datetime` value, split into its date (as an ordinal day
number) and its time-of-day. -/
structure DateTime where
  day : Nat
  time : TimeOfDay
deriving DecidableEq, Repr

/-- Python's `<` on `datetime.datetime`: compare the date first, then the
time-of-day. -/
def DateTime.blt (a b : DateTime) : Bool :=
  decide (a.day < b.day) || (decide (a.day = b.day) && a.time.blt b.time)

/-- The next-window-start computation from `timer.py` (lines 88-96):
`now.replace(hour=start.hour, minute=start.minute, second=start.second,
microsecond=0)`, plus one day when `now.time() >= start_time`. -/
def next_start (now : DateTime) (start_time : TimeOfDay) : DateTime :=
  let replaced : DateTime :=
    ⟨now.day, ⟨start_time.hour, start_time.minute, start_time.second, 0⟩⟩
  if start_time.ble now.time then ⟨replaced.day + 1, replaced.time⟩ else replaced

/-- A room as in `timer.py`: a name and a light state (initially off). -/
structure Room where
  name : String
  light_on : Bool
deriving DecidableEq, Repr

/-- `Room.toggle_light` from `timer.py` (lines 17-18). -/
def Room.toggle_light (r : Room) : Room :=
  { r with light_on := !r.light_on }

/-- `generate_random_number` from `timer.py` (lines 9-10) wraps
`random.randint(start, end)`, which returns a uniformly random integer in
the inclusive range `[start, end]` and raises `ValueError` on an empty
range. The draw is modelled by an arbitrary natural `r` selecting a member
of the range; `none` models the `ValueError`. -/
def randint (lo hi : Int) (r : Nat) : Option Int :=
  if hi < lo then none
  else some (lo + ((r % (hi - lo + 1).toNat : Nat) : Int))

/-- `generate_random_number` from `timer.py` (lines 9-10). -/
def generate_random_number (start stop : Int) (r : Nat) : Option Int :=
  randint start stop r

/-- The Stage 1 unit cap from `timer.py` (lines 103-106): 12 units of 15
minutes, else 6 units of 30 minutes. -/
def max_units (interval_minutes : Int) : Int :=
  if interval_minutes = 15 then 12 else 6

/-- The Stage 3 decision from `timer.py` (lines 116-130): with the light
on, bit 0 toggles it off; with the light off, bit 1 toggles it on. -/
def stage3_decide (room : Room) (decision : Int) : Room :=
  if room.light_on then
    if decision = 0 then room.toggle_light else room
  else
    if decision = 1 then room.toggle_light else room

/-- The Stage 2 selection from `timer.py` (line 112):
`rooms[generate_random_number(0, len(rooms)-1)]`. -/
def stage2_select (rooms : List Room) (r : Nat) : Option Room :=
  match generate_random_number 0 ((rooms.length : Int) - 1) r with
  | none => none
  | some i => rooms[i.toNat]?

/-- Stages 2 and 3 of one scheduler-loop iteration (`timer.py` lines
111-130) acting on the room list: the selected room is replaced by its
decided state, everything else stays in place. The fall-through branches
model the exception paths (empty range or failed indexing), on which the
list is left untouched. -/
def scheduler_decision_step (rooms : List Room) (rSel rBit : Nat) : List Room :=
  match generate_random_number 0 ((rooms.length : Int) - 1) rSel,
      generate_random_number 0 1 rBit with
  | some i, some d =>
    match rooms[i.toNat]? with
    | some room => rooms.set i.toNat (stage3_decide room d)
    | none => rooms
  | _, _ => rooms

/-- One entry of the `daily.sunrise` / `daily.sunset` arrays in the
Open-Meteo response, as `get_sunrise_sunset` in `weather.py` sees it after
`daily.get(..., [None])[0]`: either missing (a `None` entry, an absent or
empty `daily` array — all of which make `if not sunrise_str` fire — or an
empty string), or a nonempty string `datetime.fromisoformat` rejects
(`ValueError`, caught), or a string parsing to an instant. -/
inductive SunStr where
  | missing : SunStr
  | malformed : String → SunStr
  | valid : DateTime → SunStr
deriving DecidableEq, Repr

/-- The outcome of the HTTP fetch plus JSON decode in `get_sunrise_sunset`
(`weather.py` lines 28-49): a network failure (`urllib.error.URLError`), a
body that fails to decode (`json.JSONDecodeError`), or a decoded response
carrying the `daily.sunrise` and `daily.sunset` arrays. -/
inductive FetchOutcome where
  | urlError : FetchOutcome
  | jsonError : FetchOutcome
  | response : List SunStr → List SunStr → FetchOutcome
deriving DecidableEq, Repr

/-- The dictionary `get_sunrise_sunset` returns on success
(`weather.py` lines 59-64). -/
structure SunTimes where
  sunrise : DateTime
  sunset : DateTime
  sunrise_time : TimeOfDay
  sunset_time : TimeOfDay
deriving DecidableEq, Repr

/-- `get_sunrise_sunset` from `weather.py` (lines 16-74): every failure
path (network error, JSON decode error, missing entry, unparsable entry)
is caught and mapped to `None`; the Python function is total because its
body is wrapped in `try`/`except` clauses ending in a bare
`except Exception`. -/
def get_sunrise_sunset : FetchOutcome → Option SunTimes
  | .urlError => none
  | .jsonError => none
  | .response sunrise_list sunset_list =>
    match sunrise_list.headD .missing, sunset_list.headD .missing with
    | .missing, _ => none
    | _, .missing => none
    | .malformed _, _ => none
    | _, .malformed _ => none
    | .valid sunrise, .valid sunset =>
      some ⟨sunrise, sunset, sunrise.time, sunset.time⟩

/-- The window-bound determination at the top of the scheduler loop
(`timer.py` lines 56-73): sunset/sunrise when requested and available,
otherwise the fixed 18:00-08:00 bounds. -/
def determine_window (use_sunset : Bool) (fetch : FetchOutcome) :
    TimeOfDay × TimeOfDay :=
  if use_sunset then
    match get_sunrise_sunset fetch with
    | some w => (w.sunset_time, w.sunrise_time)
    | none => (⟨18, 0, 0, 0⟩, ⟨8, 0, 0, 0⟩)
  else (⟨18, 0, 0, 0⟩, ⟨8, 0, 0, 0⟩)

/-- A Daylight Provider failure: network error, decode error, or a
response whose first sunrise/sunset entry is missing or unparsable. -/
def FetchOutcome.isFailure : FetchOutcome → Prop
  | .urlError => True
  | .jsonError => True
  | .response sunrise_list sunset_list =>
    sunrise_list.headD .missing = .missing ∨
      sunset_list.headD .missing = .missing ∨
      (∃ s, sunrise_list.headD .missing = .malformed s) ∨
      (∃ s, sunset_list.headD .missing = .malformed s)

/-- `DEFAULT_ROOMS` from `config.py` (line 14). -/
def DEFAULT_ROOMS : List String := ["Living Room", "Bedroom", "Kitchen"]

/-- The configuration dictionary as the interactive editors in `config.py`
use it: the four keys of `DEFAULT_CONFIG`, with the latitude and longitude
read and written as (exact) numbers. -/
structure Config where
  active_rooms : List String
  latitude : Rat
  longitude : Rat
  timezone : String
deriving DecidableEq, Repr

/-- The default configuration of `config.py` (lines 15-20), in the typed
view used by the editors. -/
def default_config : Config :=
  ⟨DEFAULT_ROOMS, 40.7128, -74.0060, "America/New_York"⟩

/-- `toggle_room` from `config.py` (lines 45-53) and `rooms_config.py`
(lines 33-40), acting on the active-rooms list: `list.remove` drops the
first occurrence and returns `False`; otherwise `list.append` adds the
name at the end and returns `True`. -/
def toggle_room (rooms : List String) (room_name : String) :
    List String × Bool :=
  if room_name ∈ rooms then (rooms.erase room_name, false)
  else (rooms ++ [room_name], true)

/-- `sorted(set(DEFAULT_ROOMS + active_rooms))` as computed by
`display_rooms_menu` (`config.py` line 73). -/
def all_rooms_of (c : Config) : List String :=
  ((DEFAULT_ROOMS ++ c.active_rooms).dedup).insertionSort (· ≤ ·)

/-- A stripped, lowercased menu selection, pre-classified by whether
Python's `int()` accepts it: `num n` when `int(choice)` parses to `n`,
`text s` when it raises `ValueError` (which includes `"a"` and `"b"`). -/
inductive MenuChoice where
  | text : String → MenuChoice
  | num : Int → MenuChoice
deriving DecidableEq, Repr

/-- One iteration of the `run_rooms_config` loop (`config.py` lines
95-124) as a transition on the configuration. `new_room` is the (stripped)
name entered at the `Add new room` prompt, read only in the `"a"` branch.
The second component records a `save_config` call; none of the editor
loops ever writes the file. -/
def rooms_step (c : Config) (choice : MenuChoice) (new_room : String) :
    Config × Option Config :=
  match choice with
  | .text s =>
    if s = "b" then (c, none)
    else if s = "a" then
      if new_room ≠ "" then
        if new_room ∈ all_rooms_of c then (c, none)
        else ({ c with active_rooms := (toggle_room c.active_rooms new_room).1 }, none)
      else (c, none)
    else (c, none)
  | .num n =>
    let idx := n - 1
    if 0 ≤ idx ∧ idx < ((all_rooms_of c).length : Int) then
      match (all_rooms_of c)[idx.toNat]? with
      | some room =>
        ({ c with active_rooms := (toggle_room c.active_rooms room).1 }, none)
      | none => (c, none)
    else (c, none)

/-- One iteration of the `run_location_config` loop (`config.py` lines
129-164). `entry` is the value typed at the latitude/longitude prompt,
pre-classified by whether `float()` accepts it (`none` models the
`ValueError`); it is read only in the `"l"` and `"o"` branches. -/
def location_step (c : Config) (choice : String) (entry : Option Rat) :
    Config × Option Config :=
  if choice = "b" then (c, none)
  else if choice = "l" then
    match entry with
    | none => (c, none)
    | some lat =>
      if -90 ≤ lat ∧ lat ≤ 90 then ({ c with latitude := lat }, none)
      else (c, none)
  else if choice = "o" then
    match entry with
    | none => (c, none)
    | some lon =>
      if -180 ≤ lon ∧ lon ≤ 180 then ({ c with longitude := lon }, none)
      else (c, none)
  else (c, none)

/-- `run_timezone_config` (`config.py` lines 167-182): any entry other
than `b` (case-insensitively, i.e. the test `tz.lower() != "b"`, which
holds exactly for entries other than `b` and `B`) is stored verbatim,
with no validation. -/
def timezone_step (c : Config) (tz : String) : Config × Option Config :=
  if tz ≠ "b" ∧ tz ≠ "B" then ({ c with timezone := tz }, none) else (c, none)

/-- One iteration of the `run_interactive_config` main menu (`config.py`
lines 202-221) on a stripped, lowercased selection. `none` models the
branches that hand control to a sub-editor (whose iterations are
`rooms_step`, `location_step` and `timezone_step`); in the modelled
branches the second component records the `save_config` call made by
`"s"`. -/
def main_menu_step (c : Config) (choice : String) :
    Option (Config × Option Config) :=
  if choice = "q" then some (c, none)
  else if choice = "s" then some (c, some c)
  else if choice = "1" ∨ choice = "2" ∨ choice = "3" then none
  else if choice = "4" then some (c, none)
  else some (c, none)

/-- An invalid entry into the location editor: a selection other than
`b`/`l`/`o`, a latitude/longitude `float()` rejects, or one out of range. -/
def location_input_invalid (choice : String) (entry : Option Rat) : Prop :=
  (choice ≠ "b" ∧ choice ≠ "l" ∧ choice ≠ "o") ∨
    (choice = "l" ∧ (entry = none ∨ ∃ v, entry = some v ∧ (v < -90 ∨ 90 < v))) ∨
    (choice = "o" ∧ (entry = none ∨ ∃ v, entry = some v ∧ (v < -180 ∨ 180 < v)))

/-- An invalid entry into the rooms editor: a non-numeric selection other
than `a`/`b`, an empty new-room name, or an out-of-range room number. -/
def rooms_input_invalid (c : Config) (choice : MenuChoice) (new_room : String) :
    Prop :=
  (∃ s, choice = .text s ∧ s ≠ "b" ∧ s ≠ "a") ∨
    (choice = .text "a" ∧ new_room = "") ∨
    (∃ n, choice = .num n ∧ (n - 1 < 0 ∨ ((all_rooms_of c).length : Int) ≤ n - 1))

/-- An invalid main-menu selection (`config.py` lines 220-221). -/
def main_menu_input_invalid (choice : String) : Prop :=
  choice ≠ "q" ∧ choice ≠ "s" ∧ choice ≠ "1" ∧ choice ≠ "2" ∧
    choice ≠ "3" ∧ choice ≠ "4"

/-- A value produced by `json.load`: an object, array, string, number,
boolean or null. -/
inductive Json where
  | obj : List (String × Json) → Json
  | arr : List Json → Json
  | str : String → Json
  | num : Rat → Json
  | jbool : Bool → Json
  | null : Json

/-- A Python dictionary key reachable while merging a decoded JSON value
into the defaults: strings always; numbers, booleans and `None` only
through `dict.update` applied to a sequence of pairs (dicts and lists are
unhashable and raise instead). -/
inductive JKey where
  | kstr : String → JKey
  | knum : Rat → JKey
  | kbool : Bool → JKey
  | knull : JKey
deriving DecidableEq, Repr

/-- The uncaught exception classes `load_config` can let escape:
`except (json.JSONDecodeError, IOError)` does not cover these. -/
inductive PyError where
  | typeError : PyError
  | valueError : PyError
deriving DecidableEq, Repr

/-- Python dictionary assignment `d[k] = v`, with the dictionary modelled
as an insertion-ordered association list with distinct keys: replace the
key's entry in place, or append the new entry at the end. -/
def dict_set (d : List (JKey × Json)) (k : JKey) (v : Json) :
    List (JKey × Json) :=
  match d with
  | [] => [(k, v)]
  | p :: rest => if p.1 = k then (k, v) :: rest else p :: dict_set rest k v

/-- Python dictionary lookup `d[k]` / `k in d`, on the same model. -/
def dict_lookup (d : List (JKey × Json)) (k : JKey) : Option Json :=
  match d with
  | [] => none
  | p :: rest => if p.1 = k then some p.2 else dict_lookup rest k

/-- How `dict.update` converts one element of a non-mapping sequence into
a key/value pair: the element must be a sequence of length exactly two
(otherwise `ValueError`) whose first half is hashable (otherwise
`TypeError`). A two-element JSON array gives its halves; a two-character
string gives its two characters; a two-key object, iterated, gives its
two keys. Numbers, booleans and null are not iterable (`TypeError`). -/
def pair_of : Json → Except PyError (JKey × Json)
  | .arr [k, v] =>
    match k with
    | .str s => .ok (.kstr s, v)
    | .num q => .ok (.knum q, v)
    | .jbool b => .ok (.kbool b, v)
    | .null => .ok (.knull, v)
    | .obj _ => .error .typeError
    | .arr _ => .error .typeError
  | .arr _ => .error .valueError
  | .str s =>
    match s.toList with
    | [a, b] => .ok (.kstr (String.mk [a]), .str (String.mk [b]))
    | _ => .error .valueError
  | .obj pairs =>
    match pairs with
    | [(k1, _), (k2, _)] => .ok (.kstr k1, .str k2)
    | _ => .error .valueError
  | .num _ => .error .typeError
  | .jbool _ => .error .typeError
  | .null => .error .typeError

/-- `dict.update` over a non-mapping sequence: convert and insert the
elements left to right, raising at the first bad element (the partially
updated local dictionary is then discarded by the escaping exception). -/
def update_seq (d : List (JKey × Json)) :
    List Json → Except PyError (List (JKey × Json))
  | [] => .ok d
  | e :: rest =>
    match pair_of e with
    | .ok (k, v) => update_seq (dict_set d k v) rest
    | .error err => .error err

/-- `merged.update(data)` from `load_config` (`config.py` line 31), for an
arbitrary decoded JSON value `data`: a mapping merges key by key; an array
is treated as a sequence of pairs; a string iterates into one-character
strings, so only the empty string survives (as a no-op); numbers, booleans
and null are not iterable and raise `TypeError`. -/
def update_from (d : List (JKey × Json)) :
    Json → Except PyError (List (JKey × Json))
  | .obj pairs => .ok (pairs.foldl (fun acc p => dict_set acc (.kstr p.1) p.2) d)
  | .arr elems => update_seq d elems
  | .str s => if s = "" then .ok d else .error .valueError
  | .num _ => .error .typeError
  | .jbool _ => .error .typeError
  | .null => .error .typeError

/-- The state of `config.json` as `load_config` can encounter it: absent,
unreadable (`IOError`), present but not valid JSON (`json.JSONDecodeError`),
or decoding to a JSON value. -/
inductive FileState where
  | missing : FileState
  | unreadable : FileState
  | invalidJson : FileState
  | parsed : Json → FileState

/-- `DEFAULT_CONFIG` from `config.py` (lines 15-20), as the dictionary the
merge starts from. -/
def DEFAULT_CONFIG : List (JKey × Json) :=
  [(.kstr "active_rooms", .arr (DEFAULT_ROOMS.map .str)),
    (.kstr "latitude", .num 40.7128),
    (.kstr "longitude", .num (-74.0060)),
    (.kstr "timezone", .str "America/New_York")]

/-- `load_config` from `config.py` (lines 23-35): return the defaults when
the file is missing, unreadable or undecodable; otherwise copy the
defaults and merge the decoded value into them. Only `JSONDecodeError` and
`IOError` are caught, so errors raised by the merge itself escape. -/
def load_config : FileState → Except PyError (List (JKey × Json))
  | .missing => .ok DEFAULT_CONFIG
  | .unreadable => .ok DEFAULT_CONFIG
  | .invalidJson => .ok DEFAULT_CONFIG
  | .parsed data => update_from DEFAULT_CONFIG data

theorem blt_iff_toMicros (a b : TimeOfDay) (ha : a.valid) (hb : b.valid) :
    a.blt b = true ↔ a.toMicros < b.toMicros := by
  obtain ⟨ha1, ha2, ha3, ha4⟩ := ha
  obtain ⟨hb1, hb2, hb3, hb4⟩ := hb
  simp only [TimeOfDay.blt, TimeOfDay.toMicros, Bool.or_eq_true, Bool.and_eq_true,
    decide_eq_true_eq]
  omega

theorem ble_iff_toMicros (a b : TimeOfDay) (ha : a.valid) (hb : b.valid) :
    a.ble b = true ↔ a.toMicros ≤ b.toMicros := by
  have hext : a = b ↔
      (a.hour = b.hour ∧ a.minute = b.minute ∧ a.second = b.second ∧
        a.microsecond = b.microsecond) := by
    cases a; cases b; simp
  obtain ⟨ha1, ha2, ha3, ha4⟩ := ha
  obtain ⟨hb1, hb2, hb3, hb4⟩ := hb
  simp only [TimeOfDay.ble, TimeOfDay.blt, TimeOfDay.toMicros, Bool.or_eq_true,
    Bool.and_eq_true, decide_eq_true_eq, hext]
  omega

/-- C1: The window membership test is correct including midnight
wraparound: for all valid start/end/current times-of-day, if start ≤ end
(as instants since midnight) then `in_active_window` holds iff
start ≤ now < end, and if start > end then it holds iff now ≥ start or
now < end. -/
theorem in_active_window_correct (s e n : TimeOfDay)
    (hs : s.valid) (he : e.valid) (hn : n.valid) :
    (in_active_window s e n = true) ↔
      (if s.toMicros ≤ e.toMicros then
        s.toMicros ≤ n.toMicros ∧ n.toMicros < e.toMicros
      else
        n.toMicros ≥ s.toMicros ∨ n.toMicros < e.toMicros) := by
  unfold in_active_window
  by_cases h : s.toMicros ≤ e.toMicros
  · rw [if_pos h, if_pos ((ble_iff_toMicros s e hs he).mpr h)]
    simp only [Bool.and_eq_true, ble_iff_toMicros s n hs hn, blt_iff_toMicros n e hn he]
  · rw [if_neg h, if_neg (by
      intro hc
      exact h ((ble_iff_toMicros s e hs he).mp hc))]
    simp only [Bool.or_eq_true, ble_iff_toMicros s n hs hn, blt_iff_toMicros n e hn he,
      ge_iff_le]

/-- Witness for C1 at the spec's example: start=18:00, end=08:00,
now=23:00 is active (and the numeric characterisation agrees). -/
theorem in_active_window_correct_witness :
    (in_active_window ⟨18, 0, 0, 0⟩ ⟨8, 0, 0, 0⟩ ⟨23, 0, 0, 0⟩ = true) ↔
      (if TimeOfDay.toMicros ⟨18, 0, 0, 0⟩ ≤ TimeOfDay.toMicros ⟨8, 0, 0, 0⟩ then
        TimeOfDay.toMicros ⟨18, 0, 0, 0⟩ ≤ TimeOfDay.toMicros ⟨23, 0, 0, 0⟩ ∧
          TimeOfDay.toMicros ⟨23, 0, 0, 0⟩ < TimeOfDay.toMicros ⟨8, 0, 0, 0⟩
      else
        TimeOfDay.toMicros ⟨23, 0, 0, 0⟩ ≥ TimeOfDay.toMicros ⟨18, 0, 0, 0⟩ ∨
          TimeOfDay.toMicros ⟨23, 0, 0, 0⟩ < TimeOfDay.toMicros ⟨8, 0, 0, 0⟩) :=
  in_active_window_correct ⟨18, 0, 0, 0⟩ ⟨8, 0, 0, 0⟩ ⟨23, 0, 0, 0⟩
    (by decide) (by decide) (by decide)

theorem ble_false_blt (a b : TimeOfDay) (h : a.ble b = false) : b.blt a = true := by
  have hext : a = b ↔
      (a.hour = b.hour ∧ a.minute = b.minute ∧ a.second = b.second ∧
        a.microsecond = b.microsecond) := by
    cases a; cases b; simp
  simp only [TimeOfDay.ble, TimeOfDay.blt, Bool.or_eq_false_iff, Bool.or_eq_true,
    Bool.and_eq_false_iff, Bool.and_eq_true, decide_eq_false_iff_not, decide_eq_true_eq,
    hext] at h ⊢
  omega

/-- C2: The Stage 3 decision rule: a lit room goes off on bit 0 and is
left alone on bit 1; an unlit room goes on on bit 1 and is left alone on
bit 0. -/
theorem stage3_decision_rule (room : Room) (bit : Int) (hbit : bit = 0 ∨ bit = 1) :
    (room.light_on = true → bit = 0 → (stage3_decide room bit).light_on = false) ∧
    (room.light_on = true → bit = 1 → stage3_decide room bit = room) ∧
    (room.light_on = false → bit = 1 → (stage3_decide room bit).light_on = true) ∧
    (room.light_on = false → bit = 0 → stage3_decide room bit = room) := by
  rcases hbit with h | h <;> subst h <;>
    cases hon : room.light_on <;>
      simp [stage3_decide, Room.toggle_light, hon]

/-- Witness for C2: a lit kitchen and the bit 0 turn the light off. -/
theorem stage3_decision_rule_witness :
    ((0 : Int) = 0 ∨ (0 : Int) = 1) ∧
      (Room.light_on ⟨"Kitchen", true⟩ = true → (0 : Int) = 0 →
        (stage3_decide ⟨"Kitchen", true⟩ 0).light_on = false) :=
  ⟨Or.inl rfl, (stage3_decision_rule ⟨"Kitchen", true⟩ 0 (Or.inl rfl)).1⟩

/-- Counterexample to C3 as stated: a window start time carrying nonzero
microseconds (reachable when the provider reports a sub-second sunset
instant). With start 18:00:00.500000 and end 08:00, the instant
18:00:00.000000 is outside the window, yet the computed next start equals
`now` itself (the code rebuilds the start instant with `microsecond=0`),
so it is not strictly after `now`. -/
theorem next_start_not_after_cex :
    in_active_window ⟨18, 0, 0, 500000⟩ ⟨8, 0, 0, 0⟩ ⟨18, 0, 0, 0⟩ = false ∧
      next_start ⟨5, ⟨18, 0, 0, 0⟩⟩ ⟨18, 0, 0, 500000⟩ = ⟨5, ⟨18, 0, 0, 0⟩⟩ ∧
      DateTime.blt ⟨5, ⟨18, 0, 0, 0⟩⟩
        (next_start ⟨5, ⟨18, 0, 0, 0⟩⟩ ⟨18, 0, 0, 500000⟩) = false := by
  refine ⟨by decide, by decide, by decide⟩

/-- C3 (amended): for a window start time with zero microseconds — as
every start time the program constructs has — and any current instant
outside the active window, the computed next window-start instant is
strictly after `now`. -/
theorem next_start_strictly_after (now : DateTime) (start_time end_time : TimeOfDay)
    (hu : start_time.microsecond = 0)
    (hout : in_active_window start_time end_time now.time = false) :
    now.blt (next_start now start_time) = true := by
  unfold next_start
  by_cases h : start_time.ble now.time = true
  · simp only [h, if_pos]
    simp [DateTime.blt]
  · rw [if_neg h]
    have hlt := ble_false_blt start_time now.time (Bool.eq_false_iff.mpr h)
    obtain ⟨sh, sm, ss, su⟩ := start_time
    simp only at hu
    subst hu
    simp [DateTime.blt, hlt]

/-- Witness for C3: at 09:00 (outside the 18:00-08:00 window) the next
start instant, 18:00 the same day, lies strictly in the future. -/
theorem next_start_strictly_after_witness :
    TimeOfDay.microsecond ⟨18, 0, 0, 0⟩ = 0 ∧
      in_active_window ⟨18, 0, 0, 0⟩ ⟨8, 0, 0, 0⟩
        (DateTime.time ⟨7, ⟨9, 0, 0, 0⟩⟩) = false ∧
      DateTime.blt ⟨7, ⟨9, 0, 0, 0⟩⟩
        (next_start ⟨7, ⟨9, 0, 0, 0⟩⟩ ⟨18, 0, 0, 0⟩) = true :=
  ⟨rfl, by decide,
    next_start_strictly_after ⟨7, ⟨9, 0, 0, 0⟩⟩ ⟨18, 0, 0, 0⟩ ⟨8, 0, 0, 0⟩ rfl (by decide)⟩

/-- C5: the Stage 1 draw lies in `[1, max_units]` for both interval sizes,
so the wait never exceeds 180 minutes. -/
theorem stage1_wait_bounded (interval : Int) (hi : interval = 15 ∨ interval = 30)
    (r : Nat) :
    ∃ v : Int, generate_random_number 1 (max_units interval) r = some v ∧
      1 ≤ v ∧ v ≤ max_units interval ∧ v * interval ≤ 180 := by
  rcases hi with h | h <;> subst h
  · refine ⟨1 + ((r % 12 : Nat) : Int), ?_, ?_, ?_, ?_⟩
    · simp [generate_random_number, randint, max_units]
    · have := Int.ofNat_nonneg (r % 12)
      omega
    · have : r % 12 < 12 := Nat.mod_lt r (by norm_num)
      simp [max_units]
      omega
    · have : r % 12 < 12 := Nat.mod_lt r (by norm_num)
      omega
  · refine ⟨1 + ((r % 6 : Nat) : Int), ?_, ?_, ?_, ?_⟩
    · simp [generate_random_number, randint, max_units]
    · have := Int.ofNat_nonneg (r % 6)
      omega
    · have : r % 6 < 6 := Nat.mod_lt r (by norm_num)
      simp [max_units]
      omega
    · have : r % 6 < 6 := Nat.mod_lt r (by norm_num)
      omega

/-- Witness for C5 at interval 15 and draw seed 0. -/
theorem stage1_wait_bounded_witness :
    ((15 : Int) = 15 ∨ (15 : Int) = 30) ∧
      (∃ v : Int, generate_random_number 1 (max_units 15) 0 = some v ∧
        1 ≤ v ∧ v ≤ max_units 15 ∧ v * 15 ≤ 180) :=
  ⟨Or.inl rfl, stage1_wait_bounded 15 (Or.inl rfl) 0⟩

theorem stage3_decide_name (room : Room) (d : Int) :
    (stage3_decide room d).name = room.name := by
  unfold stage3_decide Room.toggle_light
  split <;> split <;> rfl

theorem frame_of_eq (rooms l : List Room) (h : l = rooms) :
    l.length = rooms.length ∧
      (∃ k : Nat, ∀ j : Nat, j ≠ k → l[j]? = rooms[j]?) ∧
      (∀ j : Nat, (l[j]?).map Room.name = (rooms[j]?).map Room.name) := by
  subst h
  exact ⟨rfl, ⟨0, fun j hj => rfl⟩, fun j => rfl⟩

theorem lt_length_of_getElem?_some {α : Type} (l : List α) (i : Nat) (a : α)
    (h : l[i]? = some a) : i < l.length := by
  by_contra hc
  push_neg at hc
  rw [List.getElem?_eq_none hc] at h
  exact Option.noConfusion h

/-- C7: one decision-stage iteration changes at most the single selected
slot of the room list, and never any room's name: the list keeps its
length, all slots but one are untouched, and the name stored at every slot
is preserved. -/
theorem decision_step_frame (rooms : List Room) (rSel rBit : Nat) :
    (scheduler_decision_step rooms rSel rBit).length = rooms.length ∧
      (∃ k : Nat, ∀ j : Nat, j ≠ k →
        (scheduler_decision_step rooms rSel rBit)[j]? = rooms[j]?) ∧
      (∀ j : Nat, ((scheduler_decision_step rooms rSel rBit)[j]?).map Room.name =
        (rooms[j]?).map Room.name) := by
  rcases h1 : generate_random_number 0 ((rooms.length : Int) - 1) rSel with _ | i
  · exact frame_of_eq rooms _ (by unfold scheduler_decision_step; rw [h1])
  rcases h2 : generate_random_number 0 1 rBit with _ | d
  · exact frame_of_eq rooms _ (by unfold scheduler_decision_step; rw [h1, h2])
  rcases h3 : rooms[i.toNat]? with _ | room
  · exact frame_of_eq rooms _
      (by unfold scheduler_decision_step; simp only [h1, h2, h3])
  have hstep : scheduler_decision_step rooms rSel rBit =
      rooms.set i.toNat (stage3_decide room d) := by
    unfold scheduler_decision_step
    simp only [h1, h2, h3]
  have hlt : i.toNat < rooms.length := lt_length_of_getElem?_some rooms i.toNat room h3
  refine ⟨by rw [hstep]; exact List.length_set rooms i.toNat _, ?_, ?_⟩
  · refine ⟨i.toNat, fun j hj => ?_⟩
    rw [hstep]
    exact List.getElem?_set_ne (Ne.symm hj)
  · intro j
    by_cases hji : j = i.toNat
    · subst hji
      rw [hstep, List.getElem?_set_eq_of_lt (stage3_decide room d) hlt, h3]
      simp [stage3_decide_name]
    · rw [hstep, List.getElem?_set_ne (Ne.symm hji)]

/-- Witness for C7: a concrete two-room list. -/
theorem decision_step_frame_witness :
    (scheduler_decision_step [⟨"Living Room", false⟩, ⟨"Bedroom", true⟩] 0 1).length =
        (([⟨"Living Room", false⟩, ⟨"Bedroom", true⟩] : List Room)).length ∧
      (∃ k : Nat, ∀ j : Nat, j ≠ k →
        (scheduler_decision_step [⟨"Living Room", false⟩, ⟨"Bedroom", true⟩] 0 1)[j]? =
          (([⟨"Living Room", false⟩, ⟨"Bedroom", true⟩] : List Room))[j]?) ∧
      (∀ j : Nat,
        ((scheduler_decision_step [⟨"Living Room", false⟩, ⟨"Bedroom", true⟩] 0 1)[j]?).map
            Room.name =
          ((([⟨"Living Room", false⟩, ⟨"Bedroom", true⟩] : List Room))[j]?).map Room.name) :=
  decision_step_frame [⟨"Living Room", false⟩, ⟨"Bedroom", true⟩] 0 1

/-- C8: with a non-empty room list the Stage 2 draw lies in
`[0, len-1]`, the selection succeeds and returns a member of the list;
with an empty list the draw itself is the failing step (`random.randint`
raises on the empty range). -/
theorem stage2_select_safe (rooms : List Room) (r : Nat) :
    (rooms ≠ [] →
      ∃ i : Int, generate_random_number 0 ((rooms.length : Int) - 1) r = some i ∧
        0 ≤ i ∧ i ≤ (rooms.length : Int) - 1 ∧
        ∃ room, stage2_select rooms r = some room ∧ room ∈ rooms) ∧
    (rooms = [] →
      generate_random_number 0 ((rooms.length : Int) - 1) r = none) := by
  constructor
  · intro h
    have hlen : 0 < rooms.length := List.length_pos.mpr h
    have hgen : generate_random_number 0 ((rooms.length : Int) - 1) r =
        some ((r % rooms.length : Nat) : Int) := by
      unfold generate_random_number randint
      rw [if_neg (by omega)]
      have h1 : ((rooms.length : Int) - 1 - 0 + 1).toNat = rooms.length := by omega
      rw [h1, zero_add]
    have hk : r % rooms.length < rooms.length := Nat.mod_lt r hlen
    refine ⟨((r % rooms.length : Nat) : Int), hgen, Int.ofNat_nonneg _, by omega, ?_⟩
    refine ⟨rooms.get (Fin.mk (r % rooms.length) hk), ?_,
      List.get_mem rooms (r % rooms.length) hk⟩
    unfold stage2_select
    rw [hgen]
    simp only [Int.toNat_natCast]
    rw [List.getElem?_eq_getElem hk]
    rfl
  · intro h
    subst h
    rfl

/-- Witness for C8: both the singleton-list case and the empty-list case
at draw seed 0. -/
theorem stage2_select_safe_witness :
    (∃ i : Int,
      generate_random_number 0 (((([⟨"Kitchen", false⟩] : List Room)).length : Int) - 1) 0 =
          some i ∧
        0 ≤ i ∧ i ≤ ((([⟨"Kitchen", false⟩] : List Room)).length : Int) - 1 ∧
        ∃ room, stage2_select [⟨"Kitchen", false⟩] 0 = some room ∧
          room ∈ ([⟨"Kitchen", false⟩] : List Room)) ∧
      generate_random_number 0 (((([] : List Room)).length : Int) - 1) 0 = none :=
  ⟨(stage2_select_safe [⟨"Kitchen", false⟩] 0).1 (by simp),
    (stage2_select_safe [] 0).2 rfl⟩

/-- C4: a Daylight Provider failure of any class never escapes:
`get_sunrise_sunset` returns `None`, and the scheduler iteration then uses
the fixed bounds start=18:00 and end=08:00. -/
theorem provider_failure_falls_back (f : FetchOutcome) (hf : f.isFailure) :
    get_sunrise_sunset f = none ∧
      determine_window true f = (⟨18, 0, 0, 0⟩, ⟨8, 0, 0, 0⟩) := by
  have hnone : get_sunrise_sunset f = none := by
    cases f with
    | urlError => rfl
    | jsonError => rfl
    | response sunrise_list sunset_list =>
      unfold FetchOutcome.isFailure at hf
      unfold get_sunrise_sunset
      rcases hr : sunrise_list.headD .missing with _ | s | dt <;>
        rcases hs : sunset_list.headD .missing with _ | s2 | dt2 <;>
          simp_all
  refine ⟨hnone, ?_⟩
  unfold determine_window
  rw [hnone]
  rfl

/-- Witness for C4: a network error falls back to the fixed bounds. -/
theorem provider_failure_falls_back_witness :
    get_sunrise_sunset .urlError = none ∧
      determine_window true .urlError = (⟨18, 0, 0, 0⟩, ⟨8, 0, 0, 0⟩) :=
  provider_failure_falls_back .urlError trivial

/-- Counterexample to C6 as stated: the timezone editor performs no
validation at all — an arbitrary invalid timezone string is stored
verbatim into the in-memory configuration rather than being rejected. -/
theorem timezone_invalid_accepted_cex :
    (timezone_step default_config "Not/A/Zone").1.timezone = "Not/A/Zone" ∧
      default_config.timezone = "America/New_York" := by
  constructor
  · decide
  · rfl

/-- C6 (amended): every invalid input into the location editor, the rooms
editor or the main menu (non-numeric or out-of-range latitude/longitude,
invalid selection, empty room name) is rejected: the configuration is
returned unchanged and no file write occurs. (Timezone entries are
excluded: `run_timezone_config` stores any non-`b` string verbatim.) -/
theorem invalid_config_input_rejected :
    (∀ (c : Config) (choice : String) (entry : Option Rat),
      location_input_invalid choice entry →
        location_step c choice entry = (c, none)) ∧
    (∀ (c : Config) (choice : MenuChoice) (new_room : String),
      rooms_input_invalid c choice new_room →
        rooms_step c choice new_room = (c, none)) ∧
    (∀ (c : Config) (choice : String),
      main_menu_input_invalid choice →
        main_menu_step c choice = some (c, none)) := by
  refine ⟨?_, ?_, ?_⟩
  · intro c choice entry h
    rcases h with ⟨h1, h2, h3⟩ | ⟨h1, h2⟩ | ⟨h1, h2⟩
    · unfold location_step
      rw [if_neg h1, if_neg h2, if_neg h3]
    · subst h1
      rcases h2 with he | ⟨v, hv, hrange⟩
      · subst he
        rfl
      · subst hv
        unfold location_step
        rw [if_neg (by decide), if_pos rfl]
        dsimp only
        rw [if_neg (by
          rintro ⟨ha, hb⟩
          rcases hrange with hlt | hlt <;> linarith)]
    · subst h1
      rcases h2 with he | ⟨v, hv, hrange⟩
      · subst he
        rfl
      · subst hv
        unfold location_step
        rw [if_neg (by decide), if_neg (by decide), if_pos rfl]
        dsimp only
        rw [if_neg (by
          rintro ⟨ha, hb⟩
          rcases hrange with hlt | hlt <;> linarith)]
  · intro c choice new_room h
    rcases h with ⟨s, hs, hb, ha⟩ | ⟨hc, hn⟩ | ⟨n, hn, hrange⟩
    · subst hs
      unfold rooms_step
      dsimp only
      rw [if_neg hb, if_neg ha]
    · subst hc
      subst hn
      rfl
    · subst hn
      unfold rooms_step
      dsimp only
      rw [if_neg (by
        rintro ⟨ha, hb⟩
        omega)]
  · intro c choice h
    obtain ⟨h1, h2, h3, h4, h5, h6⟩ := h
    unfold main_menu_step
    rw [if_neg h1, if_neg h2, if_neg (by simp [h3, h4, h5]), if_neg h6]

/-- Witness for C6: an unknown selection is rejected by all three menus
without touching the configuration or the file. -/
theorem invalid_config_input_rejected_witness :
    location_step default_config "x" none = (default_config, none) ∧
      rooms_step default_config (.text "x") "" = (default_config, none) ∧
      main_menu_step default_config "x" = some (default_config, none) :=
  ⟨invalid_config_input_rejected.1 default_config "x" none
      (Or.inl ⟨by decide, by decide, by decide⟩),
    invalid_config_input_rejected.2.1 default_config (.text "x") ""
      (Or.inl ⟨"x", rfl, by decide, by decide⟩),
    invalid_config_input_rejected.2.2 default_config "x"
      ⟨by decide, by decide, by decide, by decide, by decide, by decide⟩⟩

/-- Counterexample to C10 as stated: with a duplicated name in the list
(possible in a hand-edited config file), toggling twice does not restore
membership — each toggle removes one copy, leaving the name absent. -/
theorem toggle_room_double_cex :
    ¬("A" ∈ (toggle_room (toggle_room ["A", "A"] "A").1 "A").1) ∧
      "A" ∈ ["A", "A"] := by
  decide

/-- C10 (amended): `toggle_room` returns `True` iff the name was absent
(then appends it) and `False` iff present (then removes its first
occurrence); no other name's membership changes; and — provided the name
occurs at most once, as every list maintained through the UI does —
toggling twice restores the name's original membership. -/
theorem toggle_room_spec (rooms : List String) (name : String) :
    ((toggle_room rooms name).2 = true ↔ name ∉ rooms) ∧
      (name ∉ rooms → (toggle_room rooms name).1 = rooms ++ [name]) ∧
      (name ∈ rooms → (toggle_room rooms name).1 = rooms.erase name) ∧
      (∀ other, other ≠ name →
        (other ∈ (toggle_room rooms name).1 ↔ other ∈ rooms)) ∧
      (rooms.count name ≤ 1 →
        (name ∈ (toggle_room (toggle_room rooms name).1 name).1 ↔
          name ∈ rooms)) := by
  refine ⟨?_, ?_, ?_, ?_, ?_⟩
  · by_cases h : name ∈ rooms <;> simp [toggle_room, h]
  · intro h
    simp [toggle_room, h]
  · intro h
    simp [toggle_room, h]
  · intro other hne
    by_cases h : name ∈ rooms <;> simp [toggle_room, h]
    · exact List.mem_erase_of_ne hne
    · simp [hne]
  · intro hle
    by_cases h : name ∈ rooms
    · have hcnt : rooms.count name = 1 :=
        le_antisymm hle (List.count_pos_iff.mpr h)
      have h1 : (toggle_room rooms name).1 = rooms.erase name := by
        simp [toggle_room, h]
      have h2 : name ∉ rooms.erase name :=
        List.count_eq_zero.mp (by rw [List.count_erase_self, hcnt])
      rw [h1]
      simp [toggle_room, h2, h]
    · have h1 : (toggle_room rooms name).1 = rooms ++ [name] := by
        simp [toggle_room, h]
      have h2 : name ∈ rooms ++ [name] := by simp
      have h3 : ¬(name ∈ ((rooms ++ [name]).erase name)) :=
        List.count_eq_zero.mp (by
          rw [List.count_erase_self, List.count_append]
          simp [List.count_eq_zero.mpr h])
      rw [h1]
      simp [toggle_room, h2, h, h3]

/-- Witness for C10: adding then re-toggling a fresh name on a
duplicate-free list. -/
theorem toggle_room_spec_witness :
    ((toggle_room ["Living Room"] "Bedroom").2 = true ↔
        "Bedroom" ∉ ["Living Room"]) ∧
      (toggle_room ["Living Room"] "Bedroom").1 = ["Living Room"] ++ ["Bedroom"] ∧
      ("Bedroom" ∈
          (toggle_room (toggle_room ["Living Room"] "Bedroom").1 "Bedroom").1 ↔
        "Bedroom" ∈ ["Living Room"]) :=
  ⟨(toggle_room_spec ["Living Room"] "Bedroom").1,
    (toggle_room_spec ["Living Room"] "Bedroom").2.1 (by decide),
    (toggle_room_spec ["Living Room"] "Bedroom").2.2.2.2 (by decide)⟩

theorem dict_lookup_set (d : List (JKey × Json)) (k k2 : JKey) (v : Json) :
    dict_lookup (dict_set d k v) k2 =
      if k = k2 then some v else dict_lookup d k2 := by
  induction d with
  | nil =>
    unfold dict_set dict_lookup
    rfl
  | cons p rest ih =>
    by_cases hp : p.1 = k
    · unfold dict_set
      rw [if_pos hp]
      unfold dict_lookup
      by_cases h2 : k = k2
      · rw [if_pos h2, if_pos h2]
      · rw [if_neg h2, if_neg h2, if_neg (fun h => h2 (hp.symm.trans h))]
    · unfold dict_set
      rw [if_neg hp]
      unfold dict_lookup
      by_cases h2 : p.1 = k2
      · rw [if_pos h2, if_pos h2, if_neg (fun hkk => hp (h2.trans hkk.symm))]
      · rw [if_neg h2, if_neg h2, ih]

theorem dict_lookup_update (ps : List (String × Json)) (d : List (JKey × Json))
    (hnd : (ps.map Prod.fst).Nodup) (k : String) :
    dict_lookup (ps.foldl (fun acc p => dict_set acc (.kstr p.1) p.2) d) (.kstr k) =
      (match ps.find? (fun p => p.1 = k) with
      | some p => some p.2
      | none => dict_lookup d (.kstr k)) := by
  induction ps generalizing d with
  | nil => rfl
  | cons p ps ih =>
    rw [List.map_cons, List.nodup_cons] at hnd
    obtain ⟨hmem, hnd2⟩ := hnd
    rw [List.foldl_cons, ih _ hnd2]
    by_cases hk : p.1 = k
    · have hfind : ps.find? (fun q => q.1 = k) = none := by
        apply List.find?_eq_none.mpr
        intro q hq
        simp only [decide_eq_true_eq]
        intro hqk
        apply hmem
        have hq1 : q.1 ∈ ps.map Prod.fst := List.mem_map_of_mem Prod.fst hq
        rw [hk, ← hqk]
        exact hq1
      rw [hfind]
      have hfind2 : (p :: ps).find? (fun q => q.1 = k) = some p :=
        List.find?_cons_of_pos _ (by simp [hk])
      rw [hfind2, dict_lookup_set, if_pos (by rw [hk])]
    · have hfind2 : (p :: ps).find? (fun q => q.1 = k) =
          ps.find? (fun q => q.1 = k) :=
        List.find?_cons_of_neg _ (by simp [hk])
      rw [hfind2]
      rcases hf : ps.find? (fun q => q.1 = k) with _ | q
      · rw [hf, dict_lookup_set, if_neg (by simp [hk])]
      · rw [hf]

/-- Counterexample to C9 as stated: `load_config` is not total over all
file states. A file containing the valid JSON document `7` decodes
successfully, but `dict.update(7)` raises `TypeError`, which the
`except (json.JSONDecodeError, IOError)` clause does not catch, so
`load_config` raises instead of returning a configuration. -/
theorem load_config_nonobject_raises_cex :
    load_config (.parsed (.num 7)) = .error .typeError := rfl

/-- C9 (amended): `load_config` returns exactly the defaults when the
file is missing, unreadable or not valid JSON; and when the file decodes
to a JSON object it returns a configuration in which every one of the four
default keys is present, keys of the file override the defaults, and
missing keys are filled from the defaults. (Totality fails only for files
decoding to non-object JSON values, where the merge raises.) -/
theorem load_config_defaults_and_merge :
    load_config .missing = .ok DEFAULT_CONFIG ∧
      load_config .unreadable = .ok DEFAULT_CONFIG ∧
      load_config .invalidJson = .ok DEFAULT_CONFIG ∧
      ∀ ps : List (String × Json), (ps.map Prod.fst).Nodup →
        ∃ d, load_config (.parsed (.obj ps)) = .ok d ∧
          (∀ k, k ∈ (["active_rooms", "latitude", "longitude", "timezone"] :
              List String) → ∃ v, dict_lookup d (.kstr k) = some v) ∧
          (∀ k : String,
            dict_lookup d (.kstr k) =
              (match ps.find? (fun p => p.1 = k) with
              | some p => some p.2
              | none => dict_lookup DEFAULT_CONFIG (.kstr k))) := by
  refine ⟨rfl, rfl, rfl, ?_⟩
  intro ps hnd
  have hload : load_config (.parsed (.obj ps)) =
      .ok (ps.foldl (fun acc p => dict_set acc (JKey.kstr p.1) p.2) DEFAULT_CONFIG) :=
    rfl
  refine ⟨_, hload, ?_, dict_lookup_update ps DEFAULT_CONFIG hnd⟩
  intro k hk
  rw [dict_lookup_update ps DEFAULT_CONFIG hnd k]
  rcases hf : ps.find? (fun p => p.1 = k) with _ | q
  · rw [hf]
    simp only [List.mem_cons, List.not_mem_nil, or_false] at hk
    rcases hk with h | h | h | h <;> subst h <;> exact ⟨_, rfl⟩
  · rw [hf]
    exact ⟨q.2, rfl⟩

/-- Witness for C9: a file overriding just the timezone keeps all four
keys, the overridden value winning and the others defaulting. -/
theorem load_config_defaults_and_merge_witness :
    ∃ d, load_config (.parsed (.obj [("timezone", Json.str "UTC")])) = .ok d ∧
      (∀ k, k ∈ (["active_rooms", "latitude", "longitude", "timezone"] :
          List String) → ∃ v, dict_lookup d (.kstr k) = some v) ∧
      (∀ k : String,
        dict_lookup d (.kstr k) =
          (match ([("timezone", Json.str "UTC")] :
              List (String × Json)).find? (fun p => p.1 = k) with
          | some p => some p.2
          | none => dict_lookup DEFAULT_CONFIG (.kstr k))) :=
  load_config_defaults_and_merge.2.2.2 [("timezone", Json.str "UTC")] (by simp)

end PyLightTimers
